import Mathlib

/-!
Shallow embedding of the mini-turn-server game core (src/app.py).

The transport layer (Flask routing, JSON decoding, the session registry,
scenario/map file loading) is out of scope; each HTTP handler is embedded as a
pure function from a session state (`Game`) and the already-parsed request
fields to a pair of an optional error string and the session state after the
call.  A `none` error corresponds to the handler returning ok=True; a
`some msg` error corresponds to ok=False with that message, and the returned
state in that case is the state the mutable session was left in.
-/

/-- Grid coordinate: a JSON object with integer fields q and r. -/
structure Coord where
  q : Int
  r : Int
  deriving DecidableEq, Repr

/-- Combat stats of one entity slot, as built by create_game. -/
structure Stats where
  health : Int
  max_health : Int
  strength : Int
  deriving DecidableEq, Repr

/-- Turn phase enumeration (class Phase in app.py; stored as the strings
"planning" and "moving" in the Python dict). -/
inductive Phase where
  | planning
  | moving
  deriving DecidableEq, Repr

/-- One game session, as stored in the games registry by create_game. -/
structure Game where
  positions : List Coord
  playerInTurn : Int
  phase : Phase
  lastPaths : List (List Coord)
  stats : List Stats
  map : String
  deriving DecidableEq, Repr

/-- MAX_ENTITIES = 4 (app.py line 13). -/
def MAX_ENTITIES : Int := 4

/-- Default coordinate used for out-of-bounds list reads in the embedding;
the code only indexes after an explicit bounds check, so this default is
never observable on the code paths the claims are about. -/
def defaultCoord : Coord := ⟨0, 0⟩

/-- Default stats record for out-of-bounds list reads (same role as
defaultCoord). -/
def default_stats : Stats := ⟨0, 0, 0⟩

/-- is_adjacent_hex (app.py lines 29-38): adjacent iff at most one step in
each axis and not the same cell. -/
def is_adjacent_hex (pos1 pos2 : Coord) : Bool :=
  let diff_q : Int := |pos2.q - pos1.q|
  let diff_r : Int := |pos2.r - pos1.r|
  (decide (diff_q ≤ 1) && decide (diff_r ≤ 1)) && decide (diff_q + diff_r > 0)

/-- validate_path (app.py lines 40-49): false on the empty path, otherwise
the loop checks is_adjacent_hex for every index i in range(1, len(path)). -/
def validate_path (path : List Coord) : Bool :=
  if path.length < 1 then false
  else
    (List.range' 1 (path.length - 1)).all fun i =>
      is_adjacent_hex (path.getD (i - 1) defaultCoord) (path.getD i defaultCoord)

/-- get_next_alive_player (app.py lines 51-57): probes
(current_player + 1 + i) % MAX_ENTITIES for i = 0, 1, ..., MAX_ENTITIES-1 in
order and returns the first index whose health > 0, or -1 if none is found. -/
def get_next_alive_player (game : Game) (current_player : Int) : Int :=
  match (List.range MAX_ENTITIES.toNat).find? (fun i : Nat =>
      decide (0 < (game.stats.getD ((current_player + 1 + (i : Int)) % MAX_ENTITIES).toNat
        default_stats).health)) with
  | some i => (current_player + 1 + (i : Int)) % MAX_ENTITIES
  | none => -1

/-- The eight candidate spawn positions of create_game (app.py lines 78-87). -/
def all_positions : List Coord := [⟨4, 3⟩, ⟨6, 3⟩, ⟨3, 5⟩, ⟨7, 4⟩, ⟨2, 2⟩, ⟨8, 2⟩, ⟨1, 7⟩, ⟨9, 6⟩]

/-- The session state built by create_game (app.py lines 72-102): the first
MAX_ENTITIES spawn positions, singleton lastPaths, default stats
health = max_health = 10, strength = 5, player 0 to act, planning phase. -/
def create_game_state : Game :=
  let active_positions := all_positions.take MAX_ENTITIES.toNat
  { positions := active_positions
    playerInTurn := 0
    phase := Phase.planning
    lastPaths := active_positions.map fun pos => [pos]
    stats := List.replicate MAX_ENTITIES.toNat ⟨10, 10, 5⟩
    map := "overworld" }

/-- make_move (app.py lines 112-158), after the transport-level request-shape
checks: the legality checks in source order, then the commit. -/
def make_move (game : Game) (player : Int) (path : List Coord) : Option String × Game :=
  if player < 0 ∨ MAX_ENTITIES ≤ player then (some "Invalid player", game)
  else if game.playerInTurn ≠ player then (some "Not your turn", game)
  else if game.phase ≠ Phase.planning then (some "Not in planning phase", game)
  else if path = [] then (some "Empty path", game)
  else
    let current_pos := game.positions.getD player.toNat defaultCoord
    if (path.headD defaultCoord).q ≠ current_pos.q ∨
        (path.headD defaultCoord).r ≠ current_pos.r then
      (some "Path must start from current position", game)
    else if ¬ validate_path path then (some "Invalid path - non-adjacent hexes", game)
    else
      (none, { game with
        positions := game.positions.set player.toNat (path.getLastD defaultCoord)
        lastPaths := game.lastPaths.set player.toNat path
        phase := Phase.moving })

/-- attack (app.py lines 160-212), after the transport-level request-shape
checks: the legality checks in source order, then the damage statement
followed by the separate clamp-to-zero statement. -/
def attack (game : Game) (attacker target : Int) : Option String × Game :=
  if attacker < 0 ∨ MAX_ENTITIES ≤ attacker ∨ target < 0 ∨ MAX_ENTITIES ≤ target then
    (some "Invalid player numbers", game)
  else if game.playerInTurn ≠ attacker then (some "Not your turn", game)
  else if game.phase ≠ Phase.moving then (some "Not in moving phase", game)
  else if attacker = target then (some "Cannot attack yourself", game)
  else
    let attacker_pos := game.positions.getD attacker.toNat defaultCoord
    let target_pos := game.positions.getD target.toNat defaultCoord
    if ¬ is_adjacent_hex attacker_pos target_pos then (some "Target not adjacent", game)
    else if (game.stats.getD target.toNat default_stats).health ≤ 0 then
      (some "Target is already dead", game)
    else
      let attacker_strength := (game.stats.getD attacker.toNat default_stats).strength
      let tstats := game.stats.getD target.toNat default_stats
      let game1 := { game with
        stats := game.stats.set target.toNat { tstats with health := tstats.health - attacker_strength } }
      let game2 :=
        if (game1.stats.getD target.toNat default_stats).health < 0 then
          { game1 with
            stats := game1.stats.set target.toNat
              { game1.stats.getD target.toNat default_stats with health := 0 } }
        else game1
      (none, game2)

/-- end_turn (app.py lines 214-263), after the transport-level request-shape
checks: legality checks in source order, then rotation to the next alive
entity, failing with a game-over rejection if none exists. -/
def end_turn (game : Game) (player : Int) : Option String × Game :=
  if player < 0 ∨ MAX_ENTITIES ≤ player then (some "Invalid player", game)
  else if game.playerInTurn ≠ player then (some "Not your turn", game)
  else if game.phase ≠ Phase.moving then (some "Not in moving phase", game)
  else
    let next_player := get_next_alive_player game game.playerInTurn
    if next_player = -1 then (some "Game over - no alive players", game)
    else (none, { game with playerInTurn := next_player, phase := Phase.planning })

/-- set_scenario (app.py lines 336-375), after session lookup and scenario
file loading (transport concerns): the already-parsed scenario data is the
optional map label and the optional player_positions list.  The map is
overwritten when present; positions and lastPaths are overwritten slot by
slot over range(MAX_ENTITIES) when at least MAX_ENTITIES positions are
supplied; the handler then returns ok=True. -/
def set_scenario (game : Game) (scenario_map : Option String)
    (player_positions : Option (List Coord)) : Option String × Game :=
  let game1 := match scenario_map with
    | some m => { game with map := m }
    | none => game
  let game2 := match player_positions with
    | some positions =>
      if MAX_ENTITIES.toNat ≤ positions.length then
        (List.range MAX_ENTITIES.toNat).foldl (fun g i =>
          if i < positions.length then
            { g with
              positions := g.positions.set i (positions.getD i defaultCoord)
              lastPaths := g.lastPaths.set i [positions.getD i defaultCoord] }
          else g) game1
      else game1
    | none => game1
  (none, game2)

/-- Health invariant of the spec data model over the N entity slots:
0 <= health <= maxHealth for every slot. -/
def HealthInv (game : Game) : Prop :=
  ∀ i : Nat, i < MAX_ENTITIES.toNat →
    0 ≤ (game.stats.getD i default_stats).health ∧
    (game.stats.getD i default_stats).health ≤ (game.stats.getD i default_stats).max_health

instance : DecidablePred HealthInv := fun g => by
  unfold HealthInv
  infer_instance

/-- Nonnegative strength on all N entity slots (holds in every created
session, where every strength is 5). -/
def StrengthNonneg (game : Game) : Prop :=
  ∀ i : Nat, i < MAX_ENTITIES.toNat →
    0 ≤ (game.stats.getD i default_stats).strength

instance : DecidablePred StrengthNonneg := fun g => by
  unfold StrengthNonneg
  infer_instance

/-- A session satisfying the health invariant but with a negative strength on
slot 0; entities 0 and 1 are adjacent, the phase is moving and entity 0 owns
the turn, so an attack by 0 on 1 is accepted. -/
def neg_strength_game : Game := { create_game_state with
  positions := [⟨4, 3⟩, ⟨5, 3⟩, ⟨3, 5⟩, ⟨7, 4⟩]
  stats := [⟨10, 10, -5⟩, ⟨10, 10, 5⟩, ⟨10, 10, 5⟩, ⟨10, 10, 5⟩]
  phase := Phase.moving }

/-- A session with entities 1 and 2 dead and entity 0 about to end its turn:
the skip-dead-entities rotation from entity 0 must hand the turn to
entity 3. -/
def skip_game : Game := { create_game_state with
  stats := [⟨10, 10, 5⟩, ⟨0, 10, 5⟩, ⟨0, 10, 5⟩, ⟨10, 10, 5⟩]
  phase := Phase.moving }

/-- Session states reachable from a freshly created game by sequences of
successful move, attack and end-turn operations. -/
inductive Reachable : Game → Prop where
  | init : Reachable create_game_state
  | move (g : Game) (player : Int) (path : List Coord) (hg : Reachable g)
      (hok : (make_move g player path).1 = none) :
      Reachable (make_move g player path).2
  | strike (g : Game) (attacker target : Int) (hg : Reachable g)
      (hok : (attack g attacker target).1 = none) :
      Reachable (attack g attacker target).2
  | finish (g : Game) (player : Int) (hg : Reachable g)
      (hok : (end_turn g player).1 = none) :
      Reachable (end_turn g player).2

/-! Helper lemmas. -/

theorem getD_set_self {α : Type} (l : List α) (i : Nat) (a d : α) (h : i < l.length) :
    (l.set i a).getD i d = a := by
  rw [List.getD_eq_getElem _ _ (by simpa using h)]
  exact List.getElem_set_self _

theorem getD_set_ne {α : Type} (l : List α) (i j : Nat) (a d : α) (h : i ≠ j) :
    (l.set i a).getD j d = l.getD j d := by
  rw [List.getD_eq_getElem?_getD, List.getD_eq_getElem?_getD, List.getElem?_set_ne h]

theorem coord_eq {a b : Coord} (hq : a.q = b.q) (hr : a.r = b.r) : a = b := by
  cases a; cases b; simp_all

theorem lt_length_of_health_pos (g : Game) (i : Nat)
    (h : 0 < (g.stats.getD i default_stats).health) : i < g.stats.length := by
  by_contra hc
  push_neg at hc
  rw [List.getD_eq_default _ _ hc] at h
  simp [default_stats] at h

theorem validate_path_true_iff (path : List Coord) (hne : path ≠ []) :
    validate_path path = true ↔
      ∀ i : Nat, 1 ≤ i → i < path.length →
        is_adjacent_hex (path.getD (i - 1) defaultCoord) (path.getD i defaultCoord) = true := by
  have hlen : 1 ≤ path.length := List.length_pos.mpr hne
  unfold validate_path
  rw [if_neg (by omega)]
  rw [List.all_eq_true]
  constructor
  · intro h i h1 h2
    exact h i (by rw [List.mem_range'_1]; omega)
  · intro h x hx
    rw [List.mem_range'_1] at hx
    exact h x (by omega) (by omega)

theorem find?_range_four (p : Nat → Bool) :
    (List.range MAX_ENTITIES.toNat).find? p =
      if p 0 then some 0 else if p 1 then some 1 else if p 2 then some 2
      else if p 3 then some 3 else none := by
  rw [show List.range MAX_ENTITIES.toNat = [0, 1, 2, 3] from rfl]
  cases h0 : p 0 <;> cases h1 : p 1 <;> cases h2 : p 2 <;> cases h3 : p 3 <;>
    simp [List.find?, h0, h1, h2, h3]

theorem gnap_first (g : Game) (c : Int) (j : Nat) (hj : j < MAX_ENTITIES.toNat)
    (halive : 0 < (g.stats.getD ((c + 1 + (j : Int)) % MAX_ENTITIES).toNat
      default_stats).health)
    (hdead : ∀ k : Nat, k < j →
      (g.stats.getD ((c + 1 + (k : Int)) % MAX_ENTITIES).toNat default_stats).health ≤ 0) :
    get_next_alive_player g c = (c + 1 + (j : Int)) % MAX_ENTITIES := by
  unfold get_next_alive_player
  rw [find?_range_four]
  have hm : MAX_ENTITIES.toNat = 4 := rfl
  rw [hm] at hj
  interval_cases j
  · rw [if_pos (by simpa using halive)]
  · rw [if_neg (by have h := hdead 0 (by omega); simp only [decide_eq_true_eq]; omega),
      if_pos (by simpa using halive)]
  · rw [if_neg (by have h := hdead 0 (by omega); simp only [decide_eq_true_eq]; omega),
      if_neg (by have h := hdead 1 (by omega); simp only [decide_eq_true_eq]; omega),
      if_pos (by simpa using halive)]
  · rw [if_neg (by have h := hdead 0 (by omega); simp only [decide_eq_true_eq]; omega),
      if_neg (by have h := hdead 1 (by omega); simp only [decide_eq_true_eq]; omega),
      if_neg (by have h := hdead 2 (by omega); simp only [decide_eq_true_eq]; omega),
      if_pos (by simpa using halive)]

theorem gnap_none (g : Game) (c : Int)
    (hdead : ∀ k : Nat, k < MAX_ENTITIES.toNat →
      (g.stats.getD ((c + 1 + (k : Int)) % MAX_ENTITIES).toNat default_stats).health ≤ 0) :
    get_next_alive_player g c = -1 := by
  unfold get_next_alive_player
  rw [find?_range_four]
  rw [if_neg (by have h := hdead 0 (by decide); simp only [decide_eq_true_eq]; omega),
    if_neg (by have h := hdead 1 (by decide); simp only [decide_eq_true_eq]; omega),
    if_neg (by have h := hdead 2 (by decide); simp only [decide_eq_true_eq]; omega),
    if_neg (by have h := hdead 3 (by decide); simp only [decide_eq_true_eq]; omega)]

theorem gnap_alive (g : Game) (c : Int) (hne : get_next_alive_player g c ≠ -1) :
    0 ≤ get_next_alive_player g c ∧ get_next_alive_player g c < MAX_ENTITIES ∧
      0 < (g.stats.getD (get_next_alive_player g c).toNat default_stats).health := by
  unfold get_next_alive_player at hne ⊢
  cases hf : (List.range MAX_ENTITIES.toNat).find? (fun i : Nat =>
      decide (0 < (g.stats.getD ((c + 1 + (i : Int)) % MAX_ENTITIES).toNat
        default_stats).health)) with
  | none => rw [hf] at hne; exact absurd rfl hne
  | some i =>
    dsimp only
    have hp := List.find?_some hf
    simp only [decide_eq_true_eq] at hp
    refine ⟨Int.emod_nonneg _ (by simp [MAX_ENTITIES]), Int.emod_lt_of_pos _ (by simp [MAX_ENTITIES]), hp⟩

theorem make_move_reject_frame (g : Game) (player : Int) (path : List Coord)
    (h : (make_move g player path).1 ≠ none) : (make_move g player path).2 = g := by
  by_cases m1 : player < 0 ∨ MAX_ENTITIES ≤ player
  · simp only [make_move, if_pos m1]
  by_cases m2 : g.playerInTurn ≠ player
  · simp only [make_move, if_neg m1, if_pos m2]
  by_cases m3 : g.phase ≠ Phase.planning
  · simp only [make_move, if_neg m1, if_neg m2, if_pos m3]
  by_cases m4 : path = []
  · simp only [make_move, if_neg m1, if_neg m2, if_neg m3, if_pos m4]
  by_cases m5 : (path.headD defaultCoord).q ≠ (g.positions.getD player.toNat defaultCoord).q ∨
      (path.headD defaultCoord).r ≠ (g.positions.getD player.toNat defaultCoord).r
  · simp only [make_move, if_neg m1, if_neg m2, if_neg m3, if_neg m4, if_pos m5]
  by_cases m6 : ¬ validate_path path = true
  · simp only [make_move, if_neg m1, if_neg m2, if_neg m3, if_neg m4, if_neg m5, if_pos m6]
  · exfalso
    apply h
    simp only [make_move, if_neg m1, if_neg m2, if_neg m3, if_neg m4, if_neg m5, if_neg m6]

theorem attack_reject_frame (g : Game) (attacker target : Int)
    (h : (attack g attacker target).1 ≠ none) : (attack g attacker target).2 = g := by
  by_cases a1 : attacker < 0 ∨ MAX_ENTITIES ≤ attacker ∨ target < 0 ∨ MAX_ENTITIES ≤ target
  · simp only [attack, if_pos a1]
  by_cases a2 : g.playerInTurn ≠ attacker
  · simp only [attack, if_neg a1, if_pos a2]
  by_cases a3 : g.phase ≠ Phase.moving
  · simp only [attack, if_neg a1, if_neg a2, if_pos a3]
  by_cases a4 : attacker = target
  · simp only [attack, if_neg a1, if_neg a2, if_neg a3, if_pos a4]
  by_cases a5 : ¬ is_adjacent_hex (g.positions.getD attacker.toNat defaultCoord)
      (g.positions.getD target.toNat defaultCoord) = true
  · simp only [attack, if_neg a1, if_neg a2, if_neg a3, if_neg a4, if_pos a5]
  by_cases a6 : (g.stats.getD target.toNat default_stats).health ≤ 0
  · simp only [attack, if_neg a1, if_neg a2, if_neg a3, if_neg a4, if_neg a5, if_pos a6]
  · exfalso
    apply h
    simp only [attack, if_neg a1, if_neg a2, if_neg a3, if_neg a4, if_neg a5, if_neg a6]

theorem end_turn_reject_frame (g : Game) (player : Int)
    (h : (end_turn g player).1 ≠ none) : (end_turn g player).2 = g := by
  by_cases e1 : player < 0 ∨ MAX_ENTITIES ≤ player
  · simp only [end_turn, if_pos e1]
  by_cases e2 : g.playerInTurn ≠ player
  · simp only [end_turn, if_neg e1, if_pos e2]
  by_cases e3 : g.phase ≠ Phase.moving
  · simp only [end_turn, if_neg e1, if_neg e2, if_pos e3]
  by_cases e4 : get_next_alive_player g g.playerInTurn = -1
  · simp only [end_turn, if_neg e1, if_neg e2, if_neg e3, if_pos e4]
  · exfalso
    apply h
    simp only [end_turn, if_neg e1, if_neg e2, if_neg e3, if_neg e4]

theorem make_move_cases (g : Game) (player : Int) (path : List Coord) :
    (make_move g player path).2 = g ∨
    (make_move g player path).2 = { g with
      positions := g.positions.set player.toNat (path.getLastD defaultCoord)
      lastPaths := g.lastPaths.set player.toNat path
      phase := Phase.moving } := by
  by_cases m1 : player < 0 ∨ MAX_ENTITIES ≤ player
  · left; simp only [make_move, if_pos m1]
  by_cases m2 : g.playerInTurn ≠ player
  · left; simp only [make_move, if_neg m1, if_pos m2]
  by_cases m3 : g.phase ≠ Phase.planning
  · left; simp only [make_move, if_neg m1, if_neg m2, if_pos m3]
  by_cases m4 : path = []
  · left; simp only [make_move, if_neg m1, if_neg m2, if_neg m3, if_pos m4]
  by_cases m5 : (path.headD defaultCoord).q ≠ (g.positions.getD player.toNat defaultCoord).q ∨
      (path.headD defaultCoord).r ≠ (g.positions.getD player.toNat defaultCoord).r
  · left; simp only [make_move, if_neg m1, if_neg m2, if_neg m3, if_neg m4, if_pos m5]
  by_cases m6 : ¬ validate_path path = true
  · left; simp only [make_move, if_neg m1, if_neg m2, if_neg m3, if_neg m4, if_neg m5, if_pos m6]
  · right
    simp only [make_move, if_neg m1, if_neg m2, if_neg m3, if_neg m4, if_neg m5, if_neg m6]

theorem attack_cases (g : Game) (a t : Int) :
    ((attack g a t).1 ≠ none ∧ (attack g a t).2 = g) ∨
    ((attack g a t).1 = none ∧ g.playerInTurn = a ∧ a ≠ t ∧
      0 ≤ a ∧ a < MAX_ENTITIES ∧ 0 ≤ t ∧ t < MAX_ENTITIES ∧
      0 < (g.stats.getD t.toNat default_stats).health ∧
      (attack g a t).2 = { g with
        stats := g.stats.set t.toNat
          ({ g.stats.getD t.toNat default_stats with
            health := max 0 ((g.stats.getD t.toNat default_stats).health -
              (g.stats.getD a.toNat default_stats).strength) }) }) := by
  by_cases a1 : a < 0 ∨ MAX_ENTITIES ≤ a ∨ t < 0 ∨ MAX_ENTITIES ≤ t
  · left
    have he : attack g a t = (some "Invalid player numbers", g) := by
      simp only [attack, if_pos a1]
    rw [he]
    exact ⟨by simp, rfl⟩
  by_cases a2 : g.playerInTurn ≠ a
  · left
    have he : attack g a t = (some "Not your turn", g) := by
      simp only [attack, if_neg a1, if_pos a2]
    rw [he]
    exact ⟨by simp, rfl⟩
  by_cases a3 : g.phase ≠ Phase.moving
  · left
    have he : attack g a t = (some "Not in moving phase", g) := by
      simp only [attack, if_neg a1, if_neg a2, if_pos a3]
    rw [he]
    exact ⟨by simp, rfl⟩
  by_cases a4 : a = t
  · left
    have he : attack g a t = (some "Cannot attack yourself", g) := by
      simp only [attack, if_neg a1, if_neg a2, if_neg a3, if_pos a4]
    rw [he]
    exact ⟨by simp, rfl⟩
  by_cases a5 : ¬ is_adjacent_hex (g.positions.getD a.toNat defaultCoord)
      (g.positions.getD t.toNat defaultCoord) = true
  · left
    have he : attack g a t = (some "Target not adjacent", g) := by
      simp only [attack, if_neg a1, if_neg a2, if_neg a3, if_neg a4, if_pos a5]
    rw [he]
    exact ⟨by simp, rfl⟩
  by_cases a6 : (g.stats.getD t.toNat default_stats).health ≤ 0
  · left
    have he : attack g a t = (some "Target is already dead", g) := by
      simp only [attack, if_neg a1, if_neg a2, if_neg a3, if_neg a4, if_neg a5, if_pos a6]
    rw [he]
    exact ⟨by simp, rfl⟩
  · right
    push_neg at a1 a6
    obtain ⟨b1, b2, b3, b4⟩ := a1
    rw [not_ne_iff] at a2 a3
    have htlen : t.toNat < g.stats.length := lt_length_of_health_pos g t.toNat a6
    have hg1 : (g.stats.set t.toNat
        ({ health := (g.stats.getD t.toNat default_stats).health -
            (g.stats.getD a.toNat default_stats).strength
           max_health := (g.stats.getD t.toNat default_stats).max_health
           strength := (g.stats.getD t.toNat default_stats).strength : Stats })).getD
          t.toNat default_stats =
        ({ health := (g.stats.getD t.toNat default_stats).health -
            (g.stats.getD a.toNat default_stats).strength
           max_health := (g.stats.getD t.toNat default_stats).max_health
           strength := (g.stats.getD t.toNat default_stats).strength : Stats }) :=
      getD_set_self _ _ _ _ htlen
    simp only [attack, if_neg (by push_neg; exact ⟨b1, b2, b3, b4⟩ :
        ¬ (a < 0 ∨ MAX_ENTITIES ≤ a ∨ t < 0 ∨ MAX_ENTITIES ≤ t)),
      if_neg (not_ne_iff.mpr a2), if_neg (not_ne_iff.mpr a3), if_neg a4, if_neg a5,
      if_neg (by omega : ¬ (g.stats.getD t.toNat default_stats).health ≤ 0)]
    refine ⟨trivial, a2, a4, b1, b2, b3, b4, a6, ?_⟩
    simp only [hg1]
    by_cases hlt : (g.stats.getD t.toNat default_stats).health -
        (g.stats.getD a.toNat default_stats).strength < 0
    · simp only [if_pos hlt]
      have hmax : max 0 ((g.stats.getD t.toNat default_stats).health -
          (g.stats.getD a.toNat default_stats).strength) = 0 := by omega
      rw [hmax, List.set_set]
    · simp only [if_neg hlt]
      have hmax : max 0 ((g.stats.getD t.toNat default_stats).health -
          (g.stats.getD a.toNat default_stats).strength) =
          (g.stats.getD t.toNat default_stats).health -
          (g.stats.getD a.toNat default_stats).strength := by omega
      rw [hmax]

theorem end_turn_cases (g : Game) (player : Int) :
    (end_turn g player).2 = g ∨
    (get_next_alive_player g g.playerInTurn ≠ -1 ∧
     (end_turn g player).2 = { g with
       playerInTurn := get_next_alive_player g g.playerInTurn
       phase := Phase.planning }) := by
  by_cases e1 : player < 0 ∨ MAX_ENTITIES ≤ player
  · left; simp only [end_turn, if_pos e1]
  by_cases e2 : g.playerInTurn ≠ player
  · left; simp only [end_turn, if_neg e1, if_pos e2]
  by_cases e3 : g.phase ≠ Phase.moving
  · left; simp only [end_turn, if_neg e1, if_neg e2, if_pos e3]
  by_cases e4 : get_next_alive_player g g.playerInTurn = -1
  · left; simp only [end_turn, if_neg e1, if_neg e2, if_neg e3, if_pos e4]
  · right
    refine ⟨e4, ?_⟩
    simp only [end_turn, if_neg e1, if_neg e2, if_neg e3, if_neg e4]

theorem scenario_foldl_frame (ps : List Coord) (l : List Nat) (acc : Game) :
    ((l.foldl (fun g i =>
      if i < ps.length then
        { g with
          positions := g.positions.set i (ps.getD i defaultCoord)
          lastPaths := g.lastPaths.set i [ps.getD i defaultCoord] }
      else g) acc).stats = acc.stats ∧
     (l.foldl (fun g i =>
      if i < ps.length then
        { g with
          positions := g.positions.set i (ps.getD i defaultCoord)
          lastPaths := g.lastPaths.set i [ps.getD i defaultCoord] }
      else g) acc).playerInTurn = acc.playerInTurn ∧
     (l.foldl (fun g i =>
      if i < ps.length then
        { g with
          positions := g.positions.set i (ps.getD i defaultCoord)
          lastPaths := g.lastPaths.set i [ps.getD i defaultCoord] }
      else g) acc).phase = acc.phase ∧
     (l.foldl (fun g i =>
      if i < ps.length then
        { g with
          positions := g.positions.set i (ps.getD i defaultCoord)
          lastPaths := g.lastPaths.set i [ps.getD i defaultCoord] }
      else g) acc).map = acc.map) := by
  induction l generalizing acc with
  | nil => exact ⟨rfl, rfl, rfl, rfl⟩
  | cons x xs ih =>
    simp only [List.foldl_cons]
    obtain ⟨h1, h2, h3, h4⟩ := ih (if x < ps.length then
      { acc with
        positions := acc.positions.set x (ps.getD x defaultCoord)
        lastPaths := acc.lastPaths.set x [ps.getD x defaultCoord] }
      else acc)
    refine ⟨?_, ?_, ?_, ?_⟩
    · rw [h1]; split <;> rfl
    · rw [h2]; split <;> rfl
    · rw [h3]; split <;> rfl
    · rw [h4]; split <;> rfl

theorem set_scenario_frame (g : Game) (mo : Option String) (po : Option (List Coord)) :
    (set_scenario g mo po).2.stats = g.stats ∧
    (set_scenario g mo po).2.playerInTurn = g.playerInTurn ∧
    (set_scenario g mo po).2.phase = g.phase := by
  cases mo with
  | none =>
    cases po with
    | none => exact ⟨rfl, rfl, rfl⟩
    | some ps =>
      simp only [set_scenario]
      split
      · obtain ⟨h1, h2, h3, _⟩ := scenario_foldl_frame ps (List.range MAX_ENTITIES.toNat) g
        exact ⟨h1, h2, h3⟩
      · exact ⟨rfl, rfl, rfl⟩
  | some m =>
    cases po with
    | none => exact ⟨rfl, rfl, rfl⟩
    | some ps =>
      simp only [set_scenario]
      split
      · obtain ⟨h1, h2, h3, _⟩ := scenario_foldl_frame ps (List.range MAX_ENTITIES.toNat)
          { g with map := m }
        exact ⟨h1, h2, h3⟩
      · exact ⟨rfl, rfl, rfl⟩

theorem scenario_foldl_getD (ps : List Coord) (acc : Game)
    (hlen : MAX_ENTITIES.toNat ≤ ps.length)
    (hpos : acc.positions.length = MAX_ENTITIES.toNat)
    (hpaths : acc.lastPaths.length = MAX_ENTITIES.toNat)
    (i : Nat) (hi : i < MAX_ENTITIES.toNat) :
    ((List.range MAX_ENTITIES.toNat).foldl (fun g k =>
      if k < ps.length then
        { g with
          positions := g.positions.set k (ps.getD k defaultCoord)
          lastPaths := g.lastPaths.set k [ps.getD k defaultCoord] }
      else g) acc).positions.getD i defaultCoord = ps.getD i defaultCoord ∧
    ((List.range MAX_ENTITIES.toNat).foldl (fun g k =>
      if k < ps.length then
        { g with
          positions := g.positions.set k (ps.getD k defaultCoord)
          lastPaths := g.lastPaths.set k [ps.getD k defaultCoord] }
      else g) acc).lastPaths.getD i [] = [ps.getD i defaultCoord] := by
  have hm4 : MAX_ENTITIES.toNat = 4 := rfl
  rw [hm4] at hlen hpos hpaths hi
  rw [show List.range MAX_ENTITIES.toNat = [0, 1, 2, 3] from rfl]
  simp only [List.foldl_cons, List.foldl_nil]
  rw [if_pos (by omega : (0 : Nat) < ps.length), if_pos (by omega : (1 : Nat) < ps.length),
    if_pos (by omega : (2 : Nat) < ps.length), if_pos (by omega : (3 : Nat) < ps.length)]
  dsimp only
  interval_cases i <;>
    refine ⟨?_, ?_⟩ <;>
      simp [getD_set_self, getD_set_ne, List.length_set, hpos, hpaths]

theorem reachable_owner_inv (g : Game) (h : Reachable g) :
    0 ≤ g.playerInTurn ∧ g.playerInTurn < MAX_ENTITIES ∧
    0 < (g.stats.getD g.playerInTurn.toNat default_stats).health := by
  induction h with
  | init => exact ⟨by decide, by decide, by decide⟩
  | move g player path hg hok ih =>
    rcases make_move_cases g player path with he | he <;> rw [he] <;> exact ih
  | strike g attacker target hg hok ih =>
    rcases attack_cases g attacker target with ⟨hne, _⟩ |
      ⟨_, hturn, hnet, ha1, ha2, ht1, ht2, hpos, he⟩
    · exact absurd hok hne
    · rw [he]
      refine ⟨ih.1, ih.2.1, ?_⟩
      dsimp only
      have hne2 : g.playerInTurn.toNat ≠ target.toNat := by
        rw [hturn]
        omega
      rw [getD_set_ne _ _ _ _ _ (Ne.symm hne2)]
      exact ih.2.2
  | finish g player hg hok ih =>
    rcases end_turn_cases g player with he | ⟨hne, he⟩
    · rw [he]; exact ih
    · rw [he]
      obtain ⟨k1, k2, k3⟩ := gnap_alive g g.playerInTurn hne
      exact ⟨k1, k2, k3⟩

/-! Claim theorems. -/

/-- C7: for all coordinates a and b, is_adjacent_hex a b is true iff a
differs from b and both coordinate differences have absolute value at most 1
(8-directional Chebyshev adjacency); the predicate is symmetric and
irreflexive. -/

theorem isAdjacent_spec (a b : Coord) :
    (is_adjacent_hex a b = true ↔ a ≠ b ∧ |a.q - b.q| ≤ 1 ∧ |a.r - b.r| ≤ 1) ∧
    is_adjacent_hex a b = is_adjacent_hex b a ∧
    is_adjacent_hex a a = false := by
  obtain ⟨aq, ar⟩ := a
  obtain ⟨bq, br⟩ := b
  refine ⟨?_, ?_, ?_⟩
  · simp only [is_adjacent_hex, Bool.and_eq_true, decide_eq_true_eq, ne_eq, Coord.mk.injEq,
      not_and]
    rw [Int.abs_eq_natAbs, Int.abs_eq_natAbs, Int.abs_eq_natAbs, Int.abs_eq_natAbs]
    constructor
    · rintro ⟨⟨h1, h2⟩, h3⟩
      refine ⟨?_, ?_, ?_⟩ <;> omega
    · rintro ⟨h1, h2, h3⟩
      refine ⟨⟨?_, ?_⟩, ?_⟩ <;> omega
  · simp only [is_adjacent_hex]
    rw [abs_sub_comm bq aq, abs_sub_comm br ar]
  · simp [is_adjacent_hex]


/-- Witness for C7 at concrete coordinates. -/
theorem isAdjacent_spec_witness :
    is_adjacent_hex ⟨5, 4⟩ ⟨6, 3⟩ = true ∧ is_adjacent_hex ⟨4, 4⟩ ⟨4, 4⟩ = false :=
  ⟨(isAdjacent_spec ⟨5, 4⟩ ⟨6, 3⟩).1.mpr ⟨by decide, by decide, by decide⟩,
   (isAdjacent_spec ⟨4, 4⟩ ⟨4, 4⟩).2.2⟩

/-- C8: validate_path rejects the empty path, accepts every single-element
path, and in general accepts a path exactly when it is non-empty and every
consecutive pair of elements is adjacent. -/

theorem validatePath_spec :
    validate_path [] = false ∧
    (∀ c : Coord, validate_path [c] = true) ∧
    (∀ path : List Coord, validate_path path = true ↔
      path ≠ [] ∧ List.Chain' (fun a b : Coord => is_adjacent_hex a b = true) path) := by
  refine ⟨rfl, fun c => rfl, fun path => ?_⟩
  constructor
  · intro h
    have hne : path ≠ [] := by
      intro he; rw [he] at h; exact Bool.false_ne_true h
    have hlen : 1 ≤ path.length := List.length_pos.mpr hne
    refine ⟨hne, ?_⟩
    rw [List.chain'_iff_get]
    intro i hi
    have h2 : i + 1 < path.length := by omega
    have h1 : i < path.length := by omega
    have := (validate_path_true_iff path hne).mp h (i + 1) (by omega) h2
    rw [Nat.add_sub_cancel] at this
    rw [List.getD_eq_getElem _ _ h1, List.getD_eq_getElem _ _ h2] at this
    simpa [List.get_eq_getElem] using this
  · rintro ⟨hne, hch⟩
    have hlen : 1 ≤ path.length := List.length_pos.mpr hne
    rw [validate_path_true_iff path hne]
    intro i h1 h2
    rw [List.chain'_iff_get] at hch
    have hi1 : i - 1 < path.length - 1 := by omega
    have := hch (i - 1) hi1
    have hx1 : i - 1 + 1 = i := by omega
    rw [List.getD_eq_getElem _ _ (by omega : i - 1 < path.length),
      List.getD_eq_getElem _ _ h2]
    simpa [List.get_eq_getElem, hx1] using this


/-- Witness for C8 at a concrete two-step path. -/
theorem validatePath_spec_witness :
    validate_path [(⟨4, 3⟩ : Coord), ⟨5, 4⟩] = true :=
  (validatePath_spec.2.2 [⟨4, 3⟩, ⟨5, 4⟩]).mpr ⟨by decide, List.chain'_pair.mpr (by decide)⟩

/-- C1: make_move checks its preconditions in source order with the first
failure winning (entity bounds, turn ownership, planning phase, non-empty
path, path start at the current position, adjacency-valid path), leaves the
state unchanged on every failure, and on success moves the actor to the last
path element, stores the path as lastPath, switches the phase to moving and
leaves the turn owner unchanged. -/

theorem submitMove_spec (g : Game) (player : Int) (path : List Coord)
    (hpos : g.positions.length = MAX_ENTITIES.toNat)
    (hpaths : g.lastPaths.length = MAX_ENTITIES.toNat) :
    (¬ (0 ≤ player ∧ player < MAX_ENTITIES) →
      make_move g player path = (some "Invalid player", g)) ∧
    (0 ≤ player → player < MAX_ENTITIES → g.playerInTurn ≠ player →
      make_move g player path = (some "Not your turn", g)) ∧
    (0 ≤ player → player < MAX_ENTITIES → g.playerInTurn = player →
      g.phase ≠ Phase.planning →
      make_move g player path = (some "Not in planning phase", g)) ∧
    (0 ≤ player → player < MAX_ENTITIES → g.playerInTurn = player →
      g.phase = Phase.planning → path = [] →
      make_move g player path = (some "Empty path", g)) ∧
    (0 ≤ player → player < MAX_ENTITIES → g.playerInTurn = player →
      g.phase = Phase.planning → path ≠ [] →
      path.head? ≠ some (g.positions.getD player.toNat defaultCoord) →
      make_move g player path = (some "Path must start from current position", g)) ∧
    (0 ≤ player → player < MAX_ENTITIES → g.playerInTurn = player →
      g.phase = Phase.planning → path ≠ [] →
      path.head? = some (g.positions.getD player.toNat defaultCoord) →
      validate_path path = false →
      make_move g player path = (some "Invalid path - non-adjacent hexes", g)) ∧
    (∀ hne : path ≠ [], 0 ≤ player → player < MAX_ENTITIES → g.playerInTurn = player →
      g.phase = Phase.planning →
      path.head? = some (g.positions.getD player.toNat defaultCoord) →
      validate_path path = true →
      (make_move g player path).1 = none ∧
      (make_move g player path).2.positions.getD player.toNat defaultCoord = path.getLast hne ∧
      (make_move g player path).2.lastPaths.getD player.toNat [] = path ∧
      (make_move g player path).2.phase = Phase.moving ∧
      (make_move g player path).2.playerInTurn = g.playerInTurn) := by
  refine ⟨?_, ?_, ?_, ?_, ?_, ?_, ?_⟩
  · intro h
    rw [not_and_or, not_le, not_lt] at h
    unfold make_move
    rw [if_pos h]
  · intro h0 h1 h2
    unfold make_move
    rw [if_neg (by push_neg; exact ⟨h0, h1⟩), if_pos h2]
  · intro h0 h1 h2 h3
    unfold make_move
    rw [if_neg (by push_neg; exact ⟨h0, h1⟩), if_neg (by simp [h2]), if_pos h3]
  · intro h0 h1 h2 h3 h4
    unfold make_move
    rw [if_neg (by push_neg; exact ⟨h0, h1⟩), if_neg (by simp [h2]),
      if_neg (by simp [h3]), if_pos h4]
  · intro h0 h1 h2 h3 h4 h5
    unfold make_move
    rw [if_neg (by push_neg; exact ⟨h0, h1⟩), if_neg (by simp [h2]),
      if_neg (by simp [h3]), if_neg h4]
    cases path with
    | nil => exact absurd rfl h4
    | cons a t =>
      rw [if_pos]
      have : a ≠ g.positions.getD player.toNat defaultCoord := by
        intro he
        exact h5 (by simp [List.head?, he])
      simp only [List.headD]
      by_contra hc
      push_neg at hc
      obtain ⟨hq, hr⟩ := hc
      exact this (coord_eq hq hr)
  · intro h0 h1 h2 h3 h4 h5 h6
    unfold make_move
    rw [if_neg (by push_neg; exact ⟨h0, h1⟩), if_neg (by simp [h2]),
      if_neg (by simp [h3]), if_neg h4]
    cases path with
    | nil => exact absurd rfl h4
    | cons a t =>
      have ha : a = g.positions.getD player.toNat defaultCoord := by
        simpa [List.head?] using h5
      rw [if_neg (by simp [List.headD, ha]), if_pos (by simp [h6])]
  · intro hne h0 h1 h2 h3 h5 h6
    have hplt : player.toNat < MAX_ENTITIES.toNat := by
      simp only [MAX_ENTITIES] at h1 ⊢
      omega
    have heq : make_move g player path = (none, { g with
        positions := g.positions.set player.toNat (path.getLastD defaultCoord)
        lastPaths := g.lastPaths.set player.toNat path
        phase := Phase.moving }) := by
      unfold make_move
      rw [if_neg (by push_neg; exact ⟨h0, h1⟩), if_neg (by simp [h2]),
        if_neg (by simp [h3]), if_neg hne]
      cases path with
      | nil => exact absurd rfl hne
      | cons a t =>
        have ha : a = g.positions.getD player.toNat defaultCoord := by
          simpa [List.head?] using h5
        rw [if_neg (by simp [List.headD, ha]), if_neg (by simp [h6])]
    rw [heq]
    refine ⟨rfl, ?_, ?_, rfl, rfl⟩
    · have : (path.getLastD defaultCoord) = path.getLast hne := by
        rw [List.getLastD_eq_getLast?, List.getLast?_eq_getLast _ hne]; rfl
      rw [← this]
      exact getD_set_self _ _ _ _ (by rw [hpos]; exact hplt)
    · exact getD_set_self _ _ _ _ (by rw [hpaths]; exact hplt)


/-- Witness for C1: the success case on a fresh session. -/
theorem submitMove_spec_witness :
    (make_move create_game_state 0 [⟨4, 3⟩, ⟨5, 4⟩]).1 = none ∧
    (make_move create_game_state 0 [⟨4, 3⟩, ⟨5, 4⟩]).2.phase = Phase.moving := by
  have h := (submitMove_spec create_game_state 0 [⟨4, 3⟩, ⟨5, 4⟩]
      (by decide) (by decide)).2.2.2.2.2.2 (by decide) (by decide) (by decide)
      (by decide) (by decide) (by decide) (by decide)
  exact ⟨h.1, h.2.2.2.1⟩

/-- C2: attack succeeds exactly when attacker and target are in bounds, the
attacker owns the turn, the phase is moving, attacker and target differ,
their positions are adjacent and the target is alive; on success the
target's health becomes max 0 (health - strength) and neither phase nor
turn owner changes. -/

theorem submitAttack_spec (g : Game) (attacker target : Int) :
    ((attack g attacker target).1 = none ↔
      (0 ≤ attacker ∧ attacker < MAX_ENTITIES ∧ 0 ≤ target ∧ target < MAX_ENTITIES ∧
       g.playerInTurn = attacker ∧ g.phase = Phase.moving ∧ attacker ≠ target ∧
       is_adjacent_hex (g.positions.getD attacker.toNat defaultCoord)
         (g.positions.getD target.toNat defaultCoord) = true ∧
       0 < (g.stats.getD target.toNat default_stats).health)) ∧
    ((attack g attacker target).1 = none →
      (attack g attacker target).2.stats.getD target.toNat default_stats =
        { g.stats.getD target.toNat default_stats with
          health := max 0 ((g.stats.getD target.toNat default_stats).health -
            (g.stats.getD attacker.toNat default_stats).strength) } ∧
      (attack g attacker target).2.phase = g.phase ∧
      (attack g attacker target).2.playerInTurn = g.playerInTurn) := by
  by_cases h1 : attacker < 0 ∨ MAX_ENTITIES ≤ attacker ∨ target < 0 ∨ MAX_ENTITIES ≤ target
  · simp only [attack, if_pos h1]
    refine ⟨⟨fun h => by simp at h, fun hr => ?_⟩, fun h => by simp at h⟩
    obtain ⟨b1, b2, b3, b4, _⟩ := hr
    rcases h1 with h | h | h | h <;> omega
  by_cases h2 : g.playerInTurn ≠ attacker
  · simp only [attack, if_neg h1, if_pos h2]
    refine ⟨⟨fun h => by simp at h, fun hr => ?_⟩, fun h => by simp at h⟩
    exact (h2 hr.2.2.2.2.1).elim
  by_cases h3 : g.phase ≠ Phase.moving
  · simp only [attack, if_neg h1, if_neg h2, if_pos h3]
    refine ⟨⟨fun h => by simp at h, fun hr => ?_⟩, fun h => by simp at h⟩
    exact (h3 hr.2.2.2.2.2.1).elim
  by_cases h4 : attacker = target
  · simp only [attack, if_neg h1, if_neg h2, if_neg h3, if_pos h4]
    refine ⟨⟨fun h => by simp at h, fun hr => ?_⟩, fun h => by simp at h⟩
    exact (hr.2.2.2.2.2.2.1 h4).elim
  by_cases h5 : ¬ is_adjacent_hex (g.positions.getD attacker.toNat defaultCoord)
      (g.positions.getD target.toNat defaultCoord) = true
  · simp only [attack, if_neg h1, if_neg h2, if_neg h3, if_neg h4, if_pos h5]
    refine ⟨⟨fun h => by simp at h, fun hr => ?_⟩, fun h => by simp at h⟩
    exact (h5 hr.2.2.2.2.2.2.2.1).elim
  by_cases h6 : (g.stats.getD target.toNat default_stats).health ≤ 0
  · simp only [attack, if_neg h1, if_neg h2, if_neg h3, if_neg h4, if_neg h5, if_pos h6]
    refine ⟨⟨fun h => by simp at h, fun hr => ?_⟩, fun h => by simp at h⟩
    have := hr.2.2.2.2.2.2.2.2
    omega
  · push_neg at h1
    obtain ⟨b1, b2, b3, b4⟩ := h1
    rw [not_ne_iff] at h2 h3
    rw [not_not] at h5
    push_neg at h6
    have htlen : target.toNat < g.stats.length :=
      lt_length_of_health_pos g target.toNat h6
    simp only [attack, if_neg (by push_neg; exact ⟨b1, b2, b3, b4⟩ :
        ¬ (attacker < 0 ∨ MAX_ENTITIES ≤ attacker ∨ target < 0 ∨ MAX_ENTITIES ≤ target)),
      if_neg (not_ne_iff.mpr h2), if_neg (not_ne_iff.mpr h3), if_neg h4,
      if_neg (not_not.mpr h5), if_neg (by omega :
        ¬ (g.stats.getD target.toNat default_stats).health ≤ 0)]
    have hg1 : (g.stats.set target.toNat
        { g.stats.getD target.toNat default_stats with
          health := (g.stats.getD target.toNat default_stats).health -
            (g.stats.getD attacker.toNat default_stats).strength }).getD
          target.toNat default_stats =
        { g.stats.getD target.toNat default_stats with
          health := (g.stats.getD target.toNat default_stats).health -
            (g.stats.getD attacker.toNat default_stats).strength } :=
      getD_set_self _ _ _ _ htlen
    refine ⟨⟨fun _ => ⟨b1, b2, b3, b4, h2, h3, h4, h5, h6⟩, fun _ => by trivial⟩, fun _ => ?_⟩
    simp only [hg1]
    by_cases hlt : (g.stats.getD target.toNat default_stats).health -
        (g.stats.getD attacker.toNat default_stats).strength < 0
    · simp only [if_pos hlt]
      refine ⟨?_, by trivial, by trivial⟩
      rw [getD_set_self _ _ _ _ (by rw [List.length_set]; exact htlen)]
      have hmax : max 0 ((g.stats.getD target.toNat default_stats).health -
          (g.stats.getD attacker.toNat default_stats).strength) = 0 := by omega
      rw [hmax]
    · simp only [if_neg hlt]
      refine ⟨?_, by trivial, by trivial⟩
      rw [hg1]
      have hmax : max 0 ((g.stats.getD target.toNat default_stats).health -
          (g.stats.getD attacker.toNat default_stats).strength) =
          (g.stats.getD target.toNat default_stats).health -
          (g.stats.getD attacker.toNat default_stats).strength := by omega
      rw [hmax]


/-- Witness for C2: a successful attack after the demonstration move. -/
theorem submitAttack_spec_witness :
    (attack (make_move create_game_state 0 [⟨4, 3⟩, ⟨5, 4⟩]).2 0 1).1 = none := by
  have h := submitAttack_spec (make_move create_game_state 0 [⟨4, 3⟩, ⟨5, 4⟩]).2 0 1
  exact h.1.mpr ⟨by decide, by decide, by decide, by decide, by decide, by decide,
    by decide, by decide, by decide⟩

/-- C3: for a session in moving phase whose actor owns the turn, end_turn
hands the turn to the first alive entity in the scan order
(actor+1+j) mod N for j = 0, 1, ..., N-1 and resets the phase to planning,
and rejects with a game-over error leaving the session unchanged when no
entity is alive. -/

theorem endTurn_spec (g : Game) (actor : Int)
    (hb0 : 0 ≤ actor) (hb1 : actor < MAX_ENTITIES)
    (hown : g.playerInTurn = actor) (hph : g.phase = Phase.moving) :
    (∀ j : Nat, j < MAX_ENTITIES.toNat →
      0 < (g.stats.getD ((actor + 1 + (j : Int)) % MAX_ENTITIES).toNat
        default_stats).health →
      (∀ k : Nat, k < j →
        (g.stats.getD ((actor + 1 + (k : Int)) % MAX_ENTITIES).toNat
          default_stats).health ≤ 0) →
      end_turn g actor = (none, { g with
        playerInTurn := (actor + 1 + (j : Int)) % MAX_ENTITIES
        phase := Phase.planning })) ∧
    ((∀ j : Nat, j < MAX_ENTITIES.toNat →
      (g.stats.getD ((actor + 1 + (j : Int)) % MAX_ENTITIES).toNat
        default_stats).health ≤ 0) →
      end_turn g actor = (some "Game over - no alive players", g)) := by
  constructor
  · intro j hj halive hdead
    have hg : get_next_alive_player g g.playerInTurn =
        (actor + 1 + (j : Int)) % MAX_ENTITIES := by
      rw [hown]
      exact gnap_first g actor j hj halive hdead
    have hnn : (0 : Int) ≤ (actor + 1 + (j : Int)) % MAX_ENTITIES :=
      Int.emod_nonneg _ (by simp [MAX_ENTITIES])
    simp only [end_turn, if_neg (by omega : ¬ (actor < 0 ∨ MAX_ENTITIES ≤ actor)),
      if_neg (not_ne_iff.mpr hown), if_neg (not_ne_iff.mpr hph), hg,
      if_neg (by omega : ¬ (actor + 1 + (j : Int)) % MAX_ENTITIES = -1)]
  · intro hdead
    have hg : get_next_alive_player g g.playerInTurn = -1 := by
      rw [hown]
      exact gnap_none g actor hdead
    simp only [end_turn, if_neg (by omega : ¬ (actor < 0 ∨ MAX_ENTITIES ≤ actor)),
      if_neg (not_ne_iff.mpr hown), if_neg (not_ne_iff.mpr hph), hg]
    simp


/-- Witness for C3: with entities [alive, dead, dead, alive], ending entity
0's turn hands the turn to entity 3 in planning phase. -/
theorem endTurn_spec_witness :
    end_turn skip_game 0 =
      (none, { skip_game with playerInTurn := 3, phase := Phase.planning }) := by
  have h := (endTurn_spec skip_game 0 (by decide) (by decide) (by decide)
      (by decide)).1 2 (by decide) (by decide) (by decide)
  rw [h]
  decide

/-- C4: every rejected invocation of move, attack, end-turn or scenario
application leaves the session state exactly as it was. -/

theorem rejection_leaves_state (g : Game) (player attacker target : Int)
    (path : List Coord) (mo : Option String) (po : Option (List Coord)) :
    ((make_move g player path).1 ≠ none → (make_move g player path).2 = g) ∧
    ((attack g attacker target).1 ≠ none → (attack g attacker target).2 = g) ∧
    ((end_turn g player).1 ≠ none → (end_turn g player).2 = g) ∧
    ((set_scenario g mo po).1 ≠ none → (set_scenario g mo po).2 = g) := by
  refine ⟨make_move_reject_frame g player path, attack_reject_frame g attacker target,
    end_turn_reject_frame g player, ?_⟩
  intro h
  exfalso
  apply h
  cases mo <;> cases po <;> rfl


/-- Witness for C4: a move by the wrong player is rejected and leaves the
fresh session unchanged. -/
theorem rejection_leaves_state_witness :
    (make_move create_game_state 1 [⟨6, 3⟩]).2 = create_game_state :=
  (rejection_leaves_state create_game_state 1 1 1 [⟨6, 3⟩] none none).1 (by decide)

/-- Counterexample for C5 as stated: a session satisfying the health
invariant in which a legal attack by an entity with negative strength pushes
the target's health above its maxHealth. -/

theorem healthInv_not_preserved :
    HealthInv neg_strength_game ∧
    (attack neg_strength_game 0 1).1 = none ∧
    ¬ HealthInv (attack neg_strength_game 0 1).2 := by
  refine ⟨?_, ?_, ?_⟩ <;> decide


/-- C5 (amended): on sessions whose strengths are all nonnegative (as in
every created session, where strength is 5), all four operations preserve
the invariant 0 <= health <= maxHealth on every entity slot. -/

theorem healthInv_preserved (g : Game) (hinv : HealthInv g) (hstr : StrengthNonneg g) :
    (∀ (player : Int) (path : List Coord), HealthInv (make_move g player path).2) ∧
    (∀ attacker target : Int, HealthInv (attack g attacker target).2) ∧
    (∀ player : Int, HealthInv (end_turn g player).2) ∧
    (∀ (mo : Option String) (po : Option (List Coord)),
      HealthInv (set_scenario g mo po).2) := by
  refine ⟨?_, ?_, ?_, ?_⟩
  · intro player path
    rcases make_move_cases g player path with h | h <;>
      · intro i hi; rw [h]; exact hinv i hi
  · intro attacker target
    rcases attack_cases g attacker target with ⟨_, h⟩ |
      ⟨_, _, _, ha1, ha2, ht1, ht2, hpos, h⟩
    · intro i hi; rw [h]; exact hinv i hi
    · intro i hi
      rw [h]
      by_cases hit : i = target.toNat
      · subst hit
        have hlen : target.toNat < g.stats.length :=
          lt_length_of_health_pos g target.toNat hpos
        rw [getD_set_self _ _ _ _ hlen]
        have hh := hinv target.toNat hi
        have hs := hstr attacker.toNat (by
          simp only [MAX_ENTITIES] at ha2 ⊢
          omega)
        refine ⟨?_, ?_⟩ <;> · dsimp only; omega
      · rw [getD_set_ne _ _ _ _ _ (fun he => hit he.symm)]
        exact hinv i hi
  · intro player
    rcases end_turn_cases g player with h | ⟨_, h⟩ <;>
      · intro i hi; rw [h]; exact hinv i hi
  · intro mo po
    intro i hi
    rw [(set_scenario_frame g mo po).1]
    exact hinv i hi


/-- Witness for C5: the invariant after the demonstration attack. -/
theorem healthInv_preserved_witness :
    HealthInv (attack (make_move create_game_state 0 [⟨4, 3⟩, ⟨5, 4⟩]).2 0 1).2 := by
  have h := healthInv_preserved (make_move create_game_state 0 [⟨4, 3⟩, ⟨5, 4⟩]).2
    (by decide) (by decide)
  exact h.2.1 0 1

/-- Counterexample for C6 as stated: on a fresh session entity 0 spawns at
(4,3), so the path [(4,4),(5,4)] of the spec scenario is rejected for not
starting at the current position, leaving the session unchanged. -/

theorem scenario_move_rejected :
    (make_move create_game_state 0 [⟨4, 4⟩, ⟨5, 4⟩]).1 =
      some "Path must start from current position" ∧
    (make_move create_game_state 0 [⟨4, 4⟩, ⟨5, 4⟩]).2 = create_game_state := by
  constructor <;> decide


/-- C6 (amended): with the path corrected to start at entity 0's actual
spawn (4,3), the scenario plays out as described: the move is accepted
moving entity 0 to (5,4) in moving phase, the attack on entity 1 is
accepted leaving it at health 5, and ending the turn hands the turn to
entity 1 in planning phase. -/

theorem scenario_amended :
    (make_move create_game_state 0 [⟨4, 3⟩, ⟨5, 4⟩]).1 = none ∧
    ((make_move create_game_state 0 [⟨4, 3⟩, ⟨5, 4⟩]).2.positions.getD 0 defaultCoord
      = (⟨5, 4⟩ : Coord)) ∧
    (make_move create_game_state 0 [⟨4, 3⟩, ⟨5, 4⟩]).2.phase = Phase.moving ∧
    (attack (make_move create_game_state 0 [⟨4, 3⟩, ⟨5, 4⟩]).2 0 1).1 = none ∧
    ((attack (make_move create_game_state 0 [⟨4, 3⟩, ⟨5, 4⟩]).2 0 1).2.stats.getD 1
      default_stats).health = 5 ∧
    (end_turn (attack (make_move create_game_state 0 [⟨4, 3⟩, ⟨5, 4⟩]).2 0 1).2 0).1 = none ∧
    (end_turn (attack (make_move create_game_state 0 [⟨4, 3⟩, ⟨5, 4⟩]).2 0 1).2 0).2.playerInTurn
      = 1 ∧
    (end_turn (attack (make_move create_game_state 0 [⟨4, 3⟩, ⟨5, 4⟩]).2 0 1).2 0).2.phase
      = Phase.planning := by
  refine ⟨?_, ?_, ?_, ?_, ?_, ?_, ?_, ?_⟩ <;> decide


/-- C9: scenario application always succeeds regardless of phase and turn;
it never touches stats, turn owner or phase, overwrites the map label when
one is supplied, and when at least N positions are supplied it overwrites
every slot's position and resets its lastPath to the singleton of the new
position. -/

theorem applyScenario_spec (g : Game) (mo : Option String) (po : Option (List Coord))
    (hpos : g.positions.length = MAX_ENTITIES.toNat)
    (hpaths : g.lastPaths.length = MAX_ENTITIES.toNat) :
    (set_scenario g mo po).1 = none ∧
    (set_scenario g mo po).2.stats = g.stats ∧
    (set_scenario g mo po).2.playerInTurn = g.playerInTurn ∧
    (set_scenario g mo po).2.phase = g.phase ∧
    (∀ m : String, mo = some m → (set_scenario g mo po).2.map = m) ∧
    (∀ ps : List Coord, po = some ps → MAX_ENTITIES.toNat ≤ ps.length →
      ∀ i : Nat, i < MAX_ENTITIES.toNat →
        (set_scenario g mo po).2.positions.getD i defaultCoord = ps.getD i defaultCoord ∧
        (set_scenario g mo po).2.lastPaths.getD i [] = [ps.getD i defaultCoord]) := by
  obtain ⟨hs, ht, hp⟩ := set_scenario_frame g mo po
  refine ⟨by cases mo <;> cases po <;> rfl, hs, ht, hp, ?_, ?_⟩
  · intro m hm
    subst hm
    cases po with
    | none => rfl
    | some ps =>
      simp only [set_scenario]
      split
      · exact (scenario_foldl_frame ps (List.range MAX_ENTITIES.toNat)
          { g with map := m }).2.2.2
      · rfl
  · intro ps hps hlen i hi
    subst hps
    cases mo with
    | none =>
      simp only [set_scenario, if_pos hlen]
      exact scenario_foldl_getD ps g hlen hpos hpaths i hi
    | some m =>
      simp only [set_scenario, if_pos hlen]
      exact scenario_foldl_getD ps { g with map := m } hlen hpos hpaths i hi


/-- Witness for C9 on a fresh session and a concrete scenario. -/
theorem applyScenario_spec_witness :
    (set_scenario create_game_state (some "island1")
      (some [⟨1, 1⟩, ⟨2, 2⟩, ⟨3, 3⟩, ⟨4, 4⟩])).2.map = "island1" ∧
    (set_scenario create_game_state (some "island1")
      (some [⟨1, 1⟩, ⟨2, 2⟩, ⟨3, 3⟩, ⟨4, 4⟩])).2.positions.getD 0 defaultCoord =
        (⟨1, 1⟩ : Coord) := by
  have h := applyScenario_spec create_game_state (some "island1")
    (some [⟨1, 1⟩, ⟨2, 2⟩, ⟨3, 3⟩, ⟨4, 4⟩]) (by decide) (by decide)
  exact ⟨h.2.2.2.2.1 "island1" rfl,
    (h.2.2.2.2.2 [⟨1, 1⟩, ⟨2, 2⟩, ⟨3, 3⟩, ⟨4, 4⟩] rfl (by decide) 0 (by decide)).1⟩

/-- C10: in every session reachable from a fresh session by successful
move, attack and end-turn operations, the entity that owns the turn has
positive health. -/
theorem turnOwner_alive (g : Game) (h : Reachable g) :
    0 < (g.stats.getD g.playerInTurn.toNat default_stats).health :=
  (reachable_owner_inv g h).2.2

/-- Witness for C10 at the initial session. -/
theorem turnOwner_alive_witness :
    0 < (create_game_state.stats.getD create_game_state.playerInTurn.toNat
      default_stats).health :=
  turnOwner_alive create_game_state Reachable.init
